import Mathlib

/-!
Verification of the dynamic UI renderer of the AI app builder repository.

The embedding below follows the TypeScript source:
  * `src/types.ts` (component and validation data model),
  * `src/components/AppRenderer.tsx` (validation engine, renderer state,
    `handleInputChange`, `handleButtonClick`, output rendering),
  * `src/App.tsx` / the chat-driven `App` component (how `AppRenderer` is
    mounted and how a new application description reaches it).

JavaScript `Record<string, V>` objects are embedded as association lists
(`List (String × V)`) with JS property semantics: assigning to an existing
key updates it in place, assigning to a fresh key appends it, and lookups
return the first (unique) matching entry.  JS truthiness tests on optional
strings / numbers / booleans are embedded explicitly (`strTruthy`,
`numTruthy`, `Option.getD false`).
-/

set_option autoImplicit false

namespace AppBuilder

/-- The `ActionType` enum from `src/types.ts`. -/
inductive ActionType where
  | GENERATE_TEXT
  | GENERATE_IMAGE
  deriving DecidableEq, Repr

/-- The `InputValidation` record from `src/types.ts`: all three fields optional. -/
structure InputValidation where
  required : Option Bool := none
  minLength : Option Nat := none
  maxLength : Option Nat := none
  deriving DecidableEq, Repr

/-- The `AppComponent` union from `src/types.ts`: the closed six-variant tagged union.
The theme-styling fields (`label`, `placeholder`, `content`) that the
renderer logic merely passes through are kept where the logic reads them. -/
inductive AppComponent where
  | TITLE (id content : String)
  | DESCRIPTION (id content : String)
  | INPUT_TEXT (id label : String) (placeholder : Option String)
      (validation : Option InputValidation)
  | BUTTON (id label : String) (action : ActionType) (triggers : List String)
  | OUTPUT_TEXT (id displaysFor : String)
  | OUTPUT_IMAGE (id displaysFor : String)
  deriving DecidableEq, Repr

/-- The `AppConfig` record from `src/types.ts` (the theme descriptor is opaque styling
data never read by the renderer logic, so it is not modelled). -/
structure AppConfig where
  components : List AppComponent
  deriving DecidableEq, Repr

/-! ## JS `Record` embedding -/

/-- Lookup in a JS object: first entry with the given key. -/
def rget {α : Type} : List (String × α) → String → Option α
  | [], _ => none
  | (k', v) :: rest, k => if k' = k then some v else rget rest k

/-- Assignment `obj[k] = v` on a JS object: an existing key is updated in
place, a fresh key is appended (JS string-key property order). -/
def rset {α : Type} : List (String × α) → String → α → List (String × α)
  | [], k, v => [(k, v)]
  | (k', v') :: rest, k, v =>
      if k' = k then (k', v) :: rest else (k', v') :: rset rest k v

theorem rget_rset_self {α : Type} (l : List (String × α)) (k : String) (v : α) :
    rget (rset l k v) k = some v := by
  induction l with
  | nil => simp [rget, rset]
  | cons hd tl ih =>
      obtain ⟨k', v'⟩ := hd
      by_cases h : k' = k <;> simp [rget, rset, h, ih]

theorem rget_rset_ne {α : Type} (l : List (String × α)) (k k' : String) (v : α)
    (h : k' ≠ k) : rget (rset l k v) k' = rget l k' := by
  have h' : ¬ k = k' := fun hh => h hh.symm
  induction l with
  | nil => simp [rget, rset, h']
  | cons hd tl ih =>
      obtain ⟨k₀, v₀⟩ := hd
      by_cases h0 : k₀ = k
      · subst h0
        simp [rget, rset, h']
      · by_cases h1 : k₀ = k' <;> simp [rget, rset, h, h0, h1, ih]

/-! ## JS truthiness -/

/-- JS truthiness of an optional string (`undefined`/`null`/`""` are falsy). -/
def strTruthy : Option String → Bool
  | none => false
  | some s => s ≠ ""

/-- JS truthiness of an optional number (`undefined` and `0` are falsy). -/
def numTruthy : Option Nat → Bool
  | none => false
  | some n => n ≠ 0

/-! ## Validation engine

`validateInput` from `src/components/AppRenderer.tsx`, lines 12–28. -/

/-- JS `String.prototype.trim()`: drop leading and trailing whitespace.
Embedded structurally on the character list so that concrete instances
compute inside the kernel. -/
def jsTrim (s : String) : String :=
  ⟨((s.data.dropWhile Char.isWhitespace).reverse.dropWhile
      Char.isWhitespace).reverse⟩

/-- The function `validateInput(value, validation?)`: trims the value, then checks
`required`, `minLength`, `maxLength` in order with JS truthiness on each
rule field, returning the first error message or `none`. -/
def validateInput (value : String) (validation : Option InputValidation) :
    Option String :=
  match validation with
  | none => none
  | some v =>
      let trimmedValue := jsTrim value
      if v.required.getD false ∧ trimmedValue = "" then
        some "This field is required."
      else if numTruthy v.minLength ∧ trimmedValue.length < v.minLength.getD 0 then
        some ("Must be at least " ++ toString (v.minLength.getD 0) ++
          " characters long.")
      else if numTruthy v.maxLength ∧ trimmedValue.length > v.maxLength.getD 0 then
        some ("Cannot be more than " ++ toString (v.maxLength.getD 0) ++
          " characters long.")
      else
        none

/-! ## Renderer state

The four `useState` maps of `AppRenderer` (`src/components/AppRenderer.tsx`,
lines 31–34).  `errors` values are `string | null`, hence `Option String`. -/

/-- One entry of `executingState`: `{ loading: boolean; error: string | null }`. -/
structure ExecEntry where
  loading : Bool
  error : Option String
  deriving DecidableEq, Repr

/-- The renderer's four state maps. -/
structure RState where
  inputValues : List (String × String)
  outputValues : List (String × String)
  executingState : List (String × ExecEntry)
  errors : List (String × Option String)
  deriving DecidableEq, Repr

/-- The initial renderer state: all four `useState({})` maps empty. -/
def initialRState : RState := ⟨[], [], [], []⟩

/-- The data of an `INPUT_TEXT` component that the handlers read. -/
structure InputTextData where
  id : String
  validation : Option InputValidation
  deriving DecidableEq, Repr

/-- The `textInputs` memo: the `INPUT_TEXT` components of the description, in order
(`config.components.filter(c => c.type === ComponentType.INPUT_TEXT)`). -/
def textInputs (cfg : AppConfig) : List InputTextData :=
  cfg.components.filterMap fun c =>
    match c with
    | .INPUT_TEXT id _ _ validation => some ⟨id, validation⟩
    | _ => none

/-- The lookup `textInputs.find(c => c.id === id)`. -/
def findTextInput (cfg : AppConfig) (id : String) : Option InputTextData :=
  (textInputs cfg).find? (fun c => c.id = id)

/-- The data of a `BUTTON` component that the click handler receives
(`component.id`, `component.action`, `component.triggers`). -/
structure ButtonData where
  id : String
  action : ActionType
  triggers : List String
  deriving DecidableEq, Repr

/-- Looks up the `BUTTON` component with the given id in the description. -/
def findButton (cfg : AppConfig) (id : String) : Option ButtonData :=
  (cfg.components.filterMap fun c =>
    match c with
    | .BUTTON bid _ action triggers => some (⟨bid, action, triggers⟩ : ButtonData)
    | _ => none).find? (fun b => b.id = id)

/-- The handler `handleInputChange(id, value)`: store the raw value, and if an
`INPUT_TEXT` component with that id exists, re-validate and store the
(possibly null) error message. -/
def handleInputChange (cfg : AppConfig) (id value : String) (s : RState) :
    RState :=
  let s1 := { s with inputValues := rset s.inputValues id value }
  match findTextInput cfg id with
  | some comp =>
      { s1 with errors := rset s1.errors id (validateInput value comp.validation) }
  | none => s1

/-! ## Invoke (`handleButtonClick`, lines 52–86) -/

/-- The call handed to the Action Executor:
`executeAppAction(action, inputsToExecute)`, tagged with the button id the
awaiting continuation will write results for. -/
structure ExecCall where
  buttonId : String
  action : ActionType
  inputs : List (String × String)
  deriving DecidableEq, Repr

/-- The error message the validation loop of `handleButtonClick` computes for
one trigger id: `none` when no `INPUT_TEXT` with that id exists (dangling
triggers are skipped), otherwise `validateInput` on the current value
(`inputValues[triggerId] || ''`). -/
def triggerError (cfg : AppConfig) (inputValues : List (String × String))
    (t : String) : Option String :=
  match findTextInput cfg t with
  | some comp => validateInput ((rget inputValues t).getD "") comp.validation
  | none => none

/-- One iteration of the `for (const triggerId of triggers)` validation loop:
a truthy error message is written into `newErrors` and sets `hasErrors`. -/
def validateStep (cfg : AppConfig) (inputValues : List (String × String))
    (acc : List (String × Option String) × Bool) (t : String) :
    List (String × Option String) × Bool :=
  let e := triggerError cfg inputValues t
  if strTruthy e then (rset acc.1 t e, true) else acc

/-- The whole validation loop over the button's triggers, starting from
`newErrors = { ...errors }` and `hasErrors = false`. -/
def validateTriggers (cfg : AppConfig) (inputValues : List (String × String))
    (errors : List (String × Option String)) (triggers : List String) :
    List (String × Option String) × Bool :=
  triggers.foldl (validateStep cfg inputValues) (errors, false)

/-- The `inputsToExecute` record: built key by key, in trigger order, from
`inputValues[triggerId] || ''`. -/
def buildBundle (inputValues : List (String × String)) (triggers : List String) :
    List (String × String) :=
  triggers.foldl (fun acc t => rset acc t ((rget inputValues t).getD "")) []

/-- The synchronous part of `handleButtonClick` (everything before the
`await`): re-validate the triggers, publish the merged error map, and either
abort (validation failed: no execution-state change, no executor call) or mark
the button in flight and issue the executor call. -/
def handleButtonClickSync (cfg : AppConfig) (btn : ButtonData) (s : RState) :
    RState × Option ExecCall :=
  let ve := validateTriggers cfg s.inputValues s.errors btn.triggers
  let s1 := { s with errors := ve.1 }
  if ve.2 then
    (s1, none)
  else
    let s2 := { s1 with
      executingState := rset s1.executingState btn.id ⟨true, none⟩ }
    (s2, some ⟨btn.id, btn.action, buildBundle s.inputValues btn.triggers⟩)

/-- The `isLoading` flag of a button (`executingState[component.id]?.loading`). -/
def isLoadingB (s : RState) (b : String) : Bool :=
  ((rget s.executingState b).map (fun e => e.loading)).getD false

/-- The `hasInputErrors` flag of a button
(`component.triggers.some(triggerId => !!errors[triggerId])`). -/
def hasInputErrors (s : RState) (triggers : List String) : Bool :=
  triggers.any (fun t => strTruthy ((rget s.errors t).getD none))

/-- The `disabled={isLoading || hasInputErrors}` attribute of the rendered
button (lines 127–154). -/
def buttonDisabled (s : RState) (btn : ButtonData) : Bool :=
  isLoadingB s btn.id || hasInputErrors s btn.triggers

/-- A user click on a rendered button: a disabled button fires no `onClick`,
an enabled one runs the synchronous part of `handleButtonClick`. -/
def clickButton (cfg : AppConfig) (btn : ButtonData) (s : RState) :
    RState × Option ExecCall :=
  if buttonDisabled s btn then (s, none) else handleButtonClickSync cfg btn s

/-- Settlement of a successful executor call: `setOutputValues` writes the
result under the button id, then the `finally` block clears `loading` by
spreading the current entry. -/
def settleSuccess (b result : String) (s : RState) : RState :=
  let s1 := { s with outputValues := rset s.outputValues b result }
  let cur := (rget s1.executingState b).getD ⟨false, none⟩
  { s1 with executingState := rset s1.executingState b { cur with loading := false } }

/-- Settlement of a failed executor call: the `catch` block records the error
message with `loading: false`, then the `finally` block clears `loading`
again; `outputValues` is untouched. -/
def settleFailure (b msg : String) (s : RState) : RState :=
  let s1 := { s with executingState := rset s.executingState b ⟨false, some msg⟩ }
  let cur := (rget s1.executingState b).getD ⟨false, none⟩
  { s1 with executingState := rset s1.executingState b { cur with loading := false } }

/-! ## Output rendering (lines 162–186) -/

/-- What an `OUTPUT_TEXT` / `OUTPUT_IMAGE` branch of `renderComponent` puts
inside the result panel (absence of a panel is `Option.none` outside). -/
inductive OutputNode where
  | loader
  | errorText (msg : String)
  | resultText (text : String)
  | resultImage (src : String)
  deriving DecidableEq, Repr

/-- The `OUTPUT_TEXT` branch: `outputText = outputValues[displaysFor]`,
`textError = executingState[displaysFor]?.error`; render nothing when
`!outputText && !textError && !loading` (JS falsiness, so an empty-string
result counts as absent), else a loader, the error, or the result text. -/
def renderOutputText (s : RState) (displaysFor : String) : Option OutputNode :=
  let outputText := rget s.outputValues displaysFor
  let entry := rget s.executingState displaysFor
  let textError := entry.bind (fun e => e.error)
  let loadingNow := (entry.map (fun e => e.loading)).getD false
  if !strTruthy outputText && !strTruthy textError && !loadingNow then
    none
  else if loadingNow then
    some .loader
  else if strTruthy textError then
    some (.errorText (textError.getD ""))
  else
    some (.resultText (outputText.getD ""))

/-- The `OUTPUT_IMAGE` branch, identical in structure to `OUTPUT_TEXT`. -/
def renderOutputImage (s : RState) (displaysFor : String) : Option OutputNode :=
  let outputImage := rget s.outputValues displaysFor
  let entry := rget s.executingState displaysFor
  let imageError := entry.bind (fun e => e.error)
  let loadingNow := (entry.map (fun e => e.loading)).getD false
  if !strTruthy outputImage && !strTruthy imageError && !loadingNow then
    none
  else if loadingNow then
    some .loader
  else if strTruthy imageError then
    some (.errorText (imageError.getD ""))
  else
    some (.resultImage (outputImage.getD ""))

/-! ## The application-level session

`App` keeps the current description in `appConfig` state and renders
`<AppRenderer config={appConfig} />` (src/App.tsx line 195 and the chat
variant at part_001 line 387) without a `key` prop.  React therefore keeps
the same `AppRenderer` instance — and its four `useState` maps — when
`appConfig` is replaced by a newly generated description, and outstanding
`await executeAppAction(...)` continuations keep running and commit into
that same state when they settle; `AppRenderer` has no generation counter.
The trace semantics below embeds exactly that. -/

/-- A pending Action Executor call: issued, not yet settled. -/
structure AppState where
  config : AppConfig
  renderer : RState
  pending : List ExecCall
  deriving DecidableEq, Repr

/-- The events of a session: replacing the description (`setAppConfig` with a
new generated config), typing into an input, clicking a button, and a pending
executor call resolving or rejecting. -/
inductive AppEvent where
  | setConfig (cfg : AppConfig)
  | inputChange (id value : String)
  | click (buttonId : String)
  | resolve (i : Nat) (result : String)
  | reject (i : Nat) (msg : String)
  deriving DecidableEq, Repr

/-- One step of the session.  `setConfig` swaps the description but leaves
the renderer state and the pending calls untouched (no `key`, no remount, no
generation counter in the source).  A settlement writes into whatever the
renderer state is at that moment. -/
def appStep (s : AppState) : AppEvent → AppState
  | .setConfig cfg => { s with config := cfg }
  | .inputChange id value =>
      { s with renderer := handleInputChange s.config id value s.renderer }
  | .click b =>
      match findButton s.config b with
      | none => s
      | some btn =>
          let rc := clickButton s.config btn s.renderer
          { s with
            renderer := rc.1
            pending := s.pending ++ (match rc.2 with
              | some c => [c]
              | none => []) }
  | .resolve i result =>
      match s.pending[i]? with
      | some c =>
          { s with
            renderer := settleSuccess c.buttonId result s.renderer
            pending := s.pending.eraseIdx i }
      | none => s
  | .reject i msg =>
      match s.pending[i]? with
      | some c =>
          { s with
            renderer := settleFailure c.buttonId msg s.renderer
            pending := s.pending.eraseIdx i }
      | none => s

/-- Running a list of session events. -/
def appRun (s : AppState) (evs : List AppEvent) : AppState :=
  evs.foldl appStep s

/-- How many executor calls one event issues (1 exactly when a click passes
the disabled gate and validation). -/
def callsOfStep (s : AppState) : AppEvent → Nat
  | .click b =>
      match findButton s.config b with
      | none => 0
      | some btn => if (clickButton s.config btn s.renderer).2.isSome then 1 else 0
  | _ => 0

/-- Total executor calls issued along a run. -/
def callsOfRun : AppState → List AppEvent → Nat
  | _, [] => 0
  | s, e :: rest => callsOfStep s e + callsOfRun (appStep s e) rest

/-! ## Lemmas about the validation loop and the input bundle -/

theorem validateTriggers_snd (cfg : AppConfig) (iv : List (String × String))
    (errs : List (String × Option String)) (ts : List String) :
    (validateTriggers cfg iv errs ts).2 =
      ts.any (fun t => strTruthy (triggerError cfg iv t)) := by
  suffices h : ∀ (ts : List String) (acc : List (String × Option String) × Bool),
      (ts.foldl (validateStep cfg iv) acc).2 =
        (acc.2 || ts.any (fun t => strTruthy (triggerError cfg iv t))) by
    simpa [validateTriggers] using h ts (errs, false)
  intro ts
  induction ts with
  | nil => intro acc; simp
  | cons t rest ih =>
      intro acc
      by_cases h : strTruthy (triggerError cfg iv t) <;>
        simp [validateStep, h, ih, Bool.or_assoc]

theorem foldl_validateStep_preserve (cfg : AppConfig)
    (iv : List (String × String)) (ts : List String)
    (acc : List (String × Option String) × Bool) (t : String)
    (h : rget acc.1 t = some (triggerError cfg iv t)) :
    rget (ts.foldl (validateStep cfg iv) acc).1 t =
      some (triggerError cfg iv t) := by
  induction ts generalizing acc with
  | nil => exact h
  | cons u rest ih =>
      apply ih
      by_cases hu : strTruthy (triggerError cfg iv u)
      · by_cases htu : t = u
        · subst htu
          simp [validateStep, hu, rget_rset_self]
        · simp [validateStep, hu, rget_rset_ne _ _ _ _ htu, h]
      · simpa [validateStep, hu] using h

theorem foldl_validateStep_not_mem (cfg : AppConfig)
    (iv : List (String × String)) (ts : List String)
    (acc : List (String × Option String) × Bool) (t : String)
    (h : t ∉ ts) :
    rget (ts.foldl (validateStep cfg iv) acc).1 t = rget acc.1 t := by
  induction ts generalizing acc with
  | nil => rfl
  | cons u rest ih =>
      have htu : t ≠ u := fun hh => h (hh ▸ List.mem_cons_self u rest)
      have hrest : t ∉ rest := fun hh => h (List.mem_cons_of_mem u hh)
      by_cases hu : strTruthy (triggerError cfg iv u)
      · rw [List.foldl_cons, ih _ hrest]
        simp [validateStep, hu, rget_rset_ne _ _ _ _ htu]
      · rw [List.foldl_cons, ih _ hrest]
        simp [validateStep, hu]

theorem foldl_validateStep_of_fails (cfg : AppConfig)
    (iv : List (String × String)) (ts : List String)
    (acc : List (String × Option String) × Bool) (t : String) (hmem : t ∈ ts)
    (hfail : strTruthy (triggerError cfg iv t) = true) :
    rget (ts.foldl (validateStep cfg iv) acc).1 t =
      some (triggerError cfg iv t) := by
  induction ts generalizing acc with
  | nil => cases hmem
  | cons u rest ih =>
      rcases List.mem_cons.mp hmem with htu | hrest
      · subst htu
        rw [List.foldl_cons]
        apply foldl_validateStep_preserve
        simp [validateStep, hfail, rget_rset_self]
      · exact ih _ hrest

theorem validateTriggers_fst_of_fails (cfg : AppConfig)
    (iv : List (String × String)) (errs : List (String × Option String))
    (ts : List String) (t : String) (hmem : t ∈ ts)
    (hfail : strTruthy (triggerError cfg iv t) = true) :
    rget (validateTriggers cfg iv errs ts).1 t =
      some (triggerError cfg iv t) :=
  foldl_validateStep_of_fails cfg iv ts (errs, false) t hmem hfail

theorem validateTriggers_fst_not_mem (cfg : AppConfig)
    (iv : List (String × String)) (errs : List (String × Option String))
    (ts : List String) (t : String) (h : t ∉ ts) :
    rget (validateTriggers cfg iv errs ts).1 t = rget errs t :=
  foldl_validateStep_not_mem cfg iv ts (errs, false) t h

theorem rset_eq_append (l : List (String × String)) (k : String) (v : String)
    (h : rget l k = none) : rset l k v = l ++ [(k, v)] := by
  induction l with
  | nil => rfl
  | cons hd tl ih =>
      obtain ⟨k', v'⟩ := hd
      by_cases hk : k' = k
      · simp [rget, hk] at h
      · simp only [rget, if_neg hk] at h
        simp [rset, hk, ih h]

theorem buildBundle_eq_map (iv : List (String × String)) (ts : List String)
    (hnd : ts.Nodup) :
    buildBundle iv ts = ts.map (fun t => (t, (rget iv t).getD "")) := by
  suffices h : ∀ (ts : List String) (acc : List (String × String)),
      ts.Nodup → (∀ t ∈ ts, rget acc t = none) →
      ts.foldl (fun a t => rset a t ((rget iv t).getD "")) acc =
        acc ++ ts.map (fun t => (t, (rget iv t).getD "")) by
    simpa [buildBundle] using h ts [] hnd (by intro t _; rfl)
  intro ts
  induction ts with
  | nil => intro acc _ _; simp
  | cons u rest ih =>
      intro acc hnd hnone
      have hu : rget acc u = none := hnone u (List.mem_cons_self u rest)
      have hnd' := hnd
      rw [List.nodup_cons] at hnd'
      rw [List.foldl_cons, rset_eq_append _ _ _ hu,
        ih (acc ++ [(u, (rget iv u).getD "")]) hnd'.2 ?_]
      · simp
      · intro t ht
        have htu : ¬ u = t := fun hh => hnd'.1 (hh ▸ ht)
        have : rget (rset acc u ((rget iv u).getD "")) t = rget acc t :=
          rget_rset_ne _ _ _ _ (fun hh => htu hh.symm)
        rw [rset_eq_append _ _ _ hu] at this
        rw [this]
        exact hnone t (List.mem_cons_of_mem u ht)

theorem findButton_id (cfg : AppConfig) (b : String) (btn : ButtonData)
    (h : findButton cfg b = some btn) : btn.id = b := by
  have := List.find?_some h
  simpa using this

/-! ## Claim C5 -/

/-- Modelled from the spec words of the validation contract, for comparison
with the source's `validateInput`: here a `minLength` / `maxLength` rule
counts as "set" whenever the field is present, a zero bound included. -/
def validateRulesSetMeansPresent (value : String)
    (rules : Option InputValidation) : Option String :=
  match rules with
  | none => none
  | some v =>
      let trimmedValue := jsTrim value
      if v.required.getD false ∧ trimmedValue = "" then
        some "This field is required."
      else if v.minLength.isSome ∧ trimmedValue.length < v.minLength.getD 0 then
        some ("Must be at least " ++ toString (v.minLength.getD 0) ++
          " characters long.")
      else if v.maxLength.isSome ∧ trimmedValue.length > v.maxLength.getD 0 then
        some ("Cannot be more than " ++ toString (v.maxLength.getD 0) ++
          " characters long.")
      else
        none

/-- Claim C5, counterexample: with `maxLength: 0` the claim's reading of
"`R.maxLength` is set" demands the maxLength error for `"abc"`, but the
source's truthiness test skips a zero bound and returns null. -/
theorem claim_C5_counterexample :
    validateInput "abc" (some ⟨none, none, some 0⟩) = none ∧
    validateRulesSetMeansPresent "abc" (some ⟨none, none, some 0⟩) =
      some "Cannot be more than 0 characters long." := by
  constructor <;> rfl

/-- Claim C5 (amended: a length rule applies when it is present with a
nonzero value; a zero bound is ignored): `validateInput` depends on the value
only through its trim, the checks run in required → minLength → maxLength
order with the first failing check short-circuiting and producing exactly the
claimed message, all checks passing yields null, and a wholly absent rule set
always yields null. -/
theorem claim_C5_validation_order (s : String) (v : InputValidation) :
    validateInput s none = none ∧
    (∀ s', jsTrim s' = jsTrim s →
      validateInput s' (some v) = validateInput s (some v)) ∧
    (v.required.getD false ∧ jsTrim s = "" →
      validateInput s (some v) = some "This field is required.") ∧
    (¬(v.required.getD false ∧ jsTrim s = "") →
      ∀ n, v.minLength = some n → n ≠ 0 → (jsTrim s).length < n →
        validateInput s (some v) =
          some ("Must be at least " ++ toString n ++ " characters long.")) ∧
    (¬(v.required.getD false ∧ jsTrim s = "") →
      ¬(numTruthy v.minLength ∧ (jsTrim s).length < v.minLength.getD 0) →
      ∀ m, v.maxLength = some m → m ≠ 0 → (jsTrim s).length > m →
        validateInput s (some v) =
          some ("Cannot be more than " ++ toString m ++ " characters long.")) ∧
    (¬(v.required.getD false ∧ jsTrim s = "") →
      ¬(numTruthy v.minLength ∧ (jsTrim s).length < v.minLength.getD 0) →
      ¬(numTruthy v.maxLength ∧ (jsTrim s).length > v.maxLength.getD 0) →
      validateInput s (some v) = none) := by
  refine ⟨rfl, ?_, ?_, ?_, ?_, ?_⟩
  · intro s' h
    simp only [validateInput, h]
  · intro h
    simp only [validateInput]
    rw [if_pos h]
  · intro hreq n hn hn0 hlt
    have hmin : numTruthy v.minLength ∧ (jsTrim s).length < v.minLength.getD 0 := by
      constructor
      · simp [numTruthy, hn, hn0]
      · simpa [hn] using hlt
    simp only [validateInput]
    rw [if_neg hreq, if_pos hmin, hn, Option.getD_some]
  · intro hreq hmin m hm hm0 hgt
    have hmax : numTruthy v.maxLength ∧ (jsTrim s).length > v.maxLength.getD 0 := by
      constructor
      · simp [numTruthy, hm, hm0]
      · simpa [hm] using hgt
    simp only [validateInput]
    rw [if_neg hreq, if_neg hmin, if_pos hmax, hm, Option.getD_some]
  · intro hreq hmin hmax
    simp only [validateInput]
    rw [if_neg hreq, if_neg hmin, if_neg hmax]

/-- Witness for the amended claim C5 at concrete inputs: a too-short value
triggers the minLength branch, and trim-equal values validate alike. -/
theorem claim_C5_witness :
    validateInput "hi" (some ⟨none, some 5, none⟩) =
      some "Must be at least 5 characters long." ∧
    validateInput "  ok " (some ⟨some true, none, some 9⟩) =
      validateInput "ok" (some ⟨some true, none, some 9⟩) :=
  ⟨(claim_C5_validation_order "hi" ⟨none, some 5, none⟩).2.2.2.1 (by decide) 5
      rfl (by decide) (by decide),
    (claim_C5_validation_order "ok" ⟨some true, none, some 9⟩).2.1 "  ok "
      (by decide)⟩

/-! ## Claim C10 -/

/-- Claim C10: a zero `minLength` or `maxLength` bound is treated exactly as
an absent one by `validateInput` (JS truthiness on numbers) and never
produces an error; in particular `validate("abc", {maxLength: 0})` is null. -/
theorem claim_C10_zero_bound_absent (s : String) (v : InputValidation) :
    validateInput s (some { v with minLength := some 0 }) =
      validateInput s (some { v with minLength := none }) ∧
    validateInput s (some { v with maxLength := some 0 }) =
      validateInput s (some { v with maxLength := none }) ∧
    validateInput s (some ⟨none, some 0, none⟩) = none ∧
    validateInput s (some ⟨none, none, some 0⟩) = none ∧
    validateInput "abc" (some ⟨none, none, some 0⟩) = none := by
  refine ⟨?_, ?_, ?_, ?_, rfl⟩ <;>
    simp [validateInput, numTruthy]

/-! ## Claim C6 -/

/-- Claim C6: when at least one triggered input of a button fails
re-validation, the whole Invoke publishes every failing trigger's error in
the one merged error map written by the single `setErrors(newErrors)` call
and aborts: the returned state differs from the incoming one only in
`errors`, and no Action Executor call is issued. -/
theorem claim_C6_invalid_abort (cfg : AppConfig) (btn : ButtonData) (s : RState)
    (hfail : ∃ t ∈ btn.triggers,
      strTruthy (triggerError cfg s.inputValues t) = true) :
    handleButtonClickSync cfg btn s =
      ({ s with errors :=
          (validateTriggers cfg s.inputValues s.errors btn.triggers).1 }, none) ∧
    (handleButtonClickSync cfg btn s).1.executingState = s.executingState ∧
    (handleButtonClickSync cfg btn s).1.outputValues = s.outputValues ∧
    (handleButtonClickSync cfg btn s).1.inputValues = s.inputValues ∧
    (∀ t ∈ btn.triggers, ∀ m, triggerError cfg s.inputValues t = some m → m ≠ "" →
      rget (handleButtonClickSync cfg btn s).1.errors t = some (some m)) := by
  have hsnd : (validateTriggers cfg s.inputValues s.errors btn.triggers).2 = true := by
    rw [validateTriggers_snd]
    obtain ⟨t, hmem, ht⟩ := hfail
    exact List.any_eq_true.mpr ⟨t, hmem, ht⟩
  have habort : handleButtonClickSync cfg btn s =
      ({ s with errors :=
          (validateTriggers cfg s.inputValues s.errors btn.triggers).1 }, none) := by
    simp only [handleButtonClickSync, hsnd, if_true]
  refine ⟨habort, ?_, ?_, ?_, ?_⟩
  · rw [habort]
  · rw [habort]
  · rw [habort]
  · intro t hmem m hm hm0
    rw [habort]
    have ht : strTruthy (triggerError cfg s.inputValues t) = true := by
      simp [strTruthy, hm, hm0]
    have := validateTriggers_fst_of_fails cfg s.inputValues s.errors
      btn.triggers t hmem ht
    rw [hm] at this
    exact this

/-- Concrete configuration shared by several witnesses: a required `topic`
input, an unconstrained `note` input, a button per input, and an output. -/
def cfgW : AppConfig := ⟨[
  .TITLE "t" "Demo",
  .INPUT_TEXT "topic" "Topic" none (some ⟨some true, none, some 20⟩),
  .INPUT_TEXT "note" "Note" none none,
  .BUTTON "go" "Go" .GENERATE_TEXT ["note"],
  .BUTTON "go2" "Go2" .GENERATE_TEXT ["topic"],
  .OUTPUT_TEXT "out" "go"]⟩

/-- Witness for claim C6: invoking `go2` while its required `topic` trigger
was never set aborts with the required-field error recorded and no state
change elsewhere. -/
theorem claim_C6_witness :
    handleButtonClickSync cfgW ⟨"go2", .GENERATE_TEXT, ["topic"]⟩ initialRState =
      ({ initialRState with
          errors := [("topic", some "This field is required.")] }, none) ∧
    rget (handleButtonClickSync cfgW ⟨"go2", .GENERATE_TEXT, ["topic"]⟩
        initialRState).1.errors "topic" = some (some "This field is required.") :=
  ⟨(claim_C6_invalid_abort cfgW ⟨"go2", .GENERATE_TEXT, ["topic"]⟩ initialRState
      ⟨"topic", by decide, by decide⟩).1,
    (claim_C6_invalid_abort cfgW ⟨"go2", .GENERATE_TEXT, ["topic"]⟩ initialRState
      ⟨"topic", by decide, by decide⟩).2.2.2.2 "topic" (by decide)
      "This field is required." (by decide) (by decide)⟩

/-! ## Claim C7 -/

/-- Claim C7: a failed Invoke leaves `outputValues` untouched and settles the
button to `{ inFlight: false, lastError: message }`; a successful one stores
the result and settles to `{ inFlight: false, lastError: null }`; a start
followed by a successful settlement overwrites any previous `lastError`; and
every settled execution entry is an Idle (`loading = false`) variant. -/
theorem claim_C7_settlement (s : RState) (b result msg : String) :
    (settleFailure b msg s).outputValues = s.outputValues ∧
    rget (settleFailure b msg s).executingState b = some ⟨false, some msg⟩ ∧
    rget (settleSuccess b result s).outputValues b = some result ∧
    (rget s.executingState b = some ⟨true, none⟩ →
      rget (settleSuccess b result s).executingState b = some ⟨false, none⟩) ∧
    (∀ cfg btn s' c, btn.id = b → handleButtonClickSync cfg btn s = (s', some c) →
      rget (settleSuccess b result s').executingState b = some ⟨false, none⟩) ∧
    (∀ e, rget (settleSuccess b result s).executingState b = some e →
      e.loading = false) ∧
    (∀ e, rget (settleFailure b msg s).executingState b = some e →
      e.loading = false) := by
  have hsucc : ∀ (s₀ : RState), rget s₀.executingState b = some ⟨true, none⟩ →
      rget (settleSuccess b result s₀).executingState b = some ⟨false, none⟩ := by
    intro s₀ h
    simp only [settleSuccess, h, rget_rset_self, Option.getD_some]
  refine ⟨rfl, ?_, ?_, hsucc s, ?_, ?_, ?_⟩
  · simp only [settleFailure, rget_rset_self, Option.getD_some]
  · simp only [settleSuccess, rget_rset_self]
  · intro cfg btn s' c hid hrun
    have hstart : rget s'.executingState b = some ⟨true, none⟩ := by
      simp only [handleButtonClickSync] at hrun
      by_cases hv : (validateTriggers cfg s.inputValues s.errors btn.triggers).2 = true
      · rw [if_pos hv] at hrun
        cases hrun
      · rw [if_neg hv] at hrun
        cases hrun
        simpa [hid] using
          rget_rset_self ({ s with
            errors := (validateTriggers cfg s.inputValues s.errors
              btn.triggers).1 }).executingState btn.id (⟨true, none⟩ : ExecEntry)
    exact hsucc s' hstart
  · intro e he
    simp only [settleSuccess, rget_rset_self] at he
    cases he
    rfl
  · intro e he
    simp only [settleFailure, rget_rset_self, Option.getD_some] at he
    cases he
    rfl

/-- Witness for claim C7: a concrete start-then-fail and start-then-succeed
pair on the `go` button of `cfgW`. -/
theorem claim_C7_witness :
    (settleFailure "go" "boom" ⟨[], [("go", "old")], [("go", ⟨true, none⟩)], []⟩).outputValues
      = [("go", "old")] ∧
    rget (settleFailure "go" "boom"
      ⟨[], [("go", "old")], [("go", ⟨true, none⟩)], []⟩).executingState "go" =
      some ⟨false, some "boom"⟩ ∧
    rget (settleSuccess "go" "fresh"
      ⟨[], [("go", "old")], [("go", ⟨true, none⟩)], []⟩).outputValues "go" =
      some "fresh" ∧
    rget (settleSuccess "go" "fresh"
      ⟨[], [("go", "old")], [("go", ⟨true, none⟩)], []⟩).executingState "go" =
      some ⟨false, none⟩ :=
  ⟨(claim_C7_settlement ⟨[], [("go", "old")], [("go", ⟨true, none⟩)], []⟩
      "go" "fresh" "boom").1,
    (claim_C7_settlement ⟨[], [("go", "old")], [("go", ⟨true, none⟩)], []⟩
      "go" "fresh" "boom").2.1,
    (claim_C7_settlement ⟨[], [("go", "old")], [("go", ⟨true, none⟩)], []⟩
      "go" "fresh" "boom").2.2.1,
    (claim_C7_settlement ⟨[], [("go", "old")], [("go", ⟨true, none⟩)], []⟩
      "go" "fresh" "boom").2.2.2.1 (by decide)⟩

/-! ## Claim C8 -/

/-- Claim C8: an Invoke that passes validation hands the Action Executor the
button's action together with the bundle mapping each trigger id, in the
order of the `triggers` list, to that input's current value, a never-set
input contributing the empty string; a dangling trigger id (no `INPUT_TEXT`
with that id) is skipped by validation and, being never set, contributes the
empty string — the handler stays total on it rather than crashing. -/
theorem claim_C8_input_bundle (cfg : AppConfig) (btn : ButtonData) (s : RState)
    (hok : ∀ t ∈ btn.triggers,
      strTruthy (triggerError cfg s.inputValues t) = false)
    (hnd : btn.triggers.Nodup) :
    (handleButtonClickSync cfg btn s).2 =
      some ⟨btn.id, btn.action,
        btn.triggers.map (fun t => (t, (rget s.inputValues t).getD ""))⟩ ∧
    (∀ t ∈ btn.triggers, rget s.inputValues t = none →
      (t, "") ∈ btn.triggers.map (fun t => (t, (rget s.inputValues t).getD ""))) ∧
    (∀ t, findTextInput cfg t = none → triggerError cfg s.inputValues t = none) := by
  have hsnd : (validateTriggers cfg s.inputValues s.errors btn.triggers).2 = false := by
    rw [validateTriggers_snd]
    simpa using hok
  refine ⟨?_, ?_, ?_⟩
  · simp only [handleButtonClickSync, hsnd, Bool.false_eq_true, if_false,
      buildBundle_eq_map s.inputValues btn.triggers hnd]
  · intro t hmem hnone
    have : (t, (rget s.inputValues t).getD "") ∈
        btn.triggers.map (fun t => (t, (rget s.inputValues t).getD "")) :=
      List.mem_map_of_mem _ hmem
    simpa [hnone] using this
  · intro t hdangle
    simp [triggerError, hdangle]

/-- A description whose button has one real trigger and one dangling one. -/
def cfgW8 : AppConfig := ⟨[
  .INPUT_TEXT "real" "Real" none none,
  .BUTTON "goW8" "Go" .GENERATE_TEXT ["real", "ghost"]]⟩

/-- Witness for claim C8: clicking `goW8` of `cfgW8` with `real` set to
`"hello"` issues one executor call whose bundle lists `real` with its value
and the dangling, never-set `ghost` with the empty string, in trigger order. -/
theorem claim_C8_witness :
    (handleButtonClickSync cfgW8 ⟨"goW8", .GENERATE_TEXT, ["real", "ghost"]⟩
        ⟨[("real", "hello")], [], [], []⟩).2 =
      some ⟨"goW8", .GENERATE_TEXT, [("real", "hello"), ("ghost", "")]⟩ ∧
    ("ghost", "") ∈ [("real", "hello"), ("ghost", "")] ∧
    triggerError cfgW8 [("real", "hello")] "ghost" = none := by
  have h := claim_C8_input_bundle cfgW8 ⟨"goW8", .GENERATE_TEXT, ["real", "ghost"]⟩
    ⟨[("real", "hello")], [], [], []⟩ (by decide) (by decide)
  exact ⟨h.1, h.2.1 "ghost" (by decide) rfl, h.2.2 "ghost" rfl⟩

/-! ## Claim C9 -/

/-- Claim C9: an Invoke of one button — refused, aborted on validation,
started, or settling either way — never touches another button's
`executingState` or `outputValues` slice, nor the `errors` entry of any input
id outside its `triggers` list. -/
theorem claim_C9_frame (cfg : AppConfig) (btn : ButtonData) (s : RState)
    (b' : String) (hb : b' ≠ btn.id) (id' : String) (hid : id' ∉ btn.triggers)
    (r msg : String) :
    rget (clickButton cfg btn s).1.executingState b' = rget s.executingState b' ∧
    rget (clickButton cfg btn s).1.outputValues b' = rget s.outputValues b' ∧
    rget (clickButton cfg btn s).1.errors id' = rget s.errors id' ∧
    rget (settleSuccess btn.id r s).executingState b' = rget s.executingState b' ∧
    rget (settleSuccess btn.id r s).outputValues b' = rget s.outputValues b' ∧
    (settleSuccess btn.id r s).errors = s.errors ∧
    rget (settleFailure btn.id msg s).executingState b' = rget s.executingState b' ∧
    (settleFailure btn.id msg s).outputValues = s.outputValues ∧
    (settleFailure btn.id msg s).errors = s.errors := by
  refine ⟨?_, ?_, ?_, ?_, ?_, rfl, ?_, rfl, rfl⟩
  · unfold clickButton
    by_cases hd : buttonDisabled s btn
    · rw [if_pos hd]
    · rw [if_neg hd]
      simp only [handleButtonClickSync]
      by_cases hv : (validateTriggers cfg s.inputValues s.errors btn.triggers).2 = true
      · rw [if_pos hv]
      · rw [if_neg hv]
        exact rget_rset_ne _ _ _ _ hb
  · unfold clickButton
    by_cases hd : buttonDisabled s btn
    · rw [if_pos hd]
    · rw [if_neg hd]
      simp only [handleButtonClickSync]
      by_cases hv : (validateTriggers cfg s.inputValues s.errors btn.triggers).2 = true
      · rw [if_pos hv]
      · rw [if_neg hv]
  · unfold clickButton
    by_cases hd : buttonDisabled s btn
    · rw [if_pos hd]
    · rw [if_neg hd]
      simp only [handleButtonClickSync]
      by_cases hv : (validateTriggers cfg s.inputValues s.errors btn.triggers).2 = true
      · rw [if_pos hv]
        exact validateTriggers_fst_not_mem cfg s.inputValues s.errors
          btn.triggers id' hid
      · rw [if_neg hv]
        exact validateTriggers_fst_not_mem cfg s.inputValues s.errors
          btn.triggers id' hid
  · simp only [settleSuccess]
    rw [rget_rset_ne _ _ _ _ hb]
  · simp only [settleSuccess]
    exact rget_rset_ne _ _ _ _ hb
  · simp only [settleFailure]
    rw [rget_rset_ne _ _ _ _ hb, rget_rset_ne _ _ _ _ hb]

/-- A renderer state with live slices for `go2` and a recorded `topic`
error, used to observe that Invokes of `go` do not disturb them. -/
def sW9 : RState :=
  ⟨[("note", "hi")], [("go2", "kept")], [("go2", ⟨true, none⟩)],
    [("topic", some "This field is required.")]⟩

/-- Witness for claim C9: an Invoke lifecycle of `go` in `cfgW` leaves the
`go2` slices and the `topic` error entry exactly as they were. -/
theorem claim_C9_witness :
    rget (clickButton cfgW ⟨"go", .GENERATE_TEXT, ["note"]⟩ sW9).1.executingState
      "go2" = some ⟨true, none⟩ ∧
    rget (clickButton cfgW ⟨"go", .GENERATE_TEXT, ["note"]⟩ sW9).1.outputValues
      "go2" = some "kept" ∧
    rget (clickButton cfgW ⟨"go", .GENERATE_TEXT, ["note"]⟩ sW9).1.errors
      "topic" = some (some "This field is required.") ∧
    rget (settleSuccess "go" "res" sW9).outputValues "go2" = some "kept" ∧
    (settleFailure "go" "boom" sW9).errors = sW9.errors := by
  have h := claim_C9_frame cfgW ⟨"go", .GENERATE_TEXT, ["note"]⟩ sW9
    "go2" (by decide) "topic" (by decide) "res" "boom"
  refine ⟨?_, ?_, ?_, ?_, h.2.2.2.2.2.2.2.2⟩
  · rw [h.1]; rfl
  · rw [h.2.1]; rfl
  · rw [h.2.2.1]; rfl
  · rw [h.2.2.2.2.1]; rfl

/-! ## Claim C1 -/

theorem clickButton_disabled_of_loading (cfg : AppConfig) (btn : ButtonData)
    (r : RState) (h : isLoadingB r btn.id = true) :
    clickButton cfg btn r = (r, none) := by
  unfold clickButton
  rw [if_pos (by simp [buttonDisabled, h])]

theorem clickButton_loading_of_call (cfg : AppConfig) (btn : ButtonData)
    (r : RState) (h : (clickButton cfg btn r).2.isSome = true) :
    isLoadingB (clickButton cfg btn r).1 btn.id = true := by
  unfold clickButton at *
  by_cases hd : buttonDisabled r btn = true
  · rw [if_pos hd] at h
    simp at h
  · rw [if_neg hd] at *
    simp only [handleButtonClickSync] at *
    by_cases hv : (validateTriggers cfg r.inputValues r.errors btn.triggers).2 = true
    · rw [if_pos hv] at h
      simp at h
    · rw [if_neg hv]
      simp [isLoadingB, rget_rset_self]

/-- Claim C1: while an Invoke of a button is in flight
(`executingState[B].loading` is true) the rendered button is disabled, so a
further click of the same button is a complete no-op — the session state is
unchanged and no Action Executor call is issued — and hence a click that does
issue a call is followed by no further call for that button however often it
is clicked again before the first call settles: exactly one executor call. -/
theorem claim_C1_reentrancy (s : AppState) (b : String) (btn : ButtonData)
    (n : Nat) (hfind : findButton s.config b = some btn) :
    (isLoadingB s.renderer b = true →
      appStep s (.click b) = s ∧
      appRun s (List.replicate n (.click b)) = s ∧
      callsOfRun s (List.replicate n (.click b)) = 0) ∧
    (callsOfStep s (.click b) = 1 →
      callsOfRun s (AppEvent.click b :: List.replicate n (.click b)) = 1) := by
  have hid : btn.id = b := findButton_id s.config b btn hfind
  have noop : ∀ s' : AppState, findButton s'.config b = some btn →
      isLoadingB s'.renderer b = true →
      appStep s' (.click b) = s' ∧ callsOfStep s' (.click b) = 0 := by
    intro s' hf hl
    have hclick : clickButton s'.config btn s'.renderer = (s'.renderer, none) :=
      clickButton_disabled_of_loading s'.config btn s'.renderer (hid ▸ hl)
    constructor
    · simp [appStep, hf, hclick]
    · simp [callsOfStep, hf, hclick]
  have rep : ∀ (n : Nat) (s' : AppState), findButton s'.config b = some btn →
      isLoadingB s'.renderer b = true →
      appRun s' (List.replicate n (.click b)) = s' ∧
      callsOfRun s' (List.replicate n (.click b)) = 0 := by
    intro n
    induction n with
    | zero => intro s' _ _; exact ⟨rfl, rfl⟩
    | succ k ih =>
        intro s' hf hl
        have hno := noop s' hf hl
        constructor
        · rw [List.replicate_succ, appRun, List.foldl_cons, hno.1]
          exact (ih s' hf hl).1
        · rw [List.replicate_succ, callsOfRun, hno.2, hno.1]
          simpa using (ih s' hf hl).2
  refine ⟨fun hl => ⟨(noop s hfind hl).1, (rep n s hfind hl).1, (rep n s hfind hl).2⟩, ?_⟩
  intro hone
  have hsome : (clickButton s.config btn s.renderer).2.isSome = true := by
    simp only [callsOfStep, hfind] at hone
    by_cases h : (clickButton s.config btn s.renderer).2.isSome = true
    · exact h
    · rw [if_neg h] at hone
      cases hone
  have hl' : isLoadingB (appStep s (.click b)).renderer b = true := by
    have := clickButton_loading_of_call s.config btn s.renderer hsome
    simp only [appStep, hfind]
    exact hid ▸ this
  have hf' : findButton (appStep s (.click b)).config b = some btn := by
    simp only [appStep, hfind]
  rw [callsOfRun, hone, (rep n _ hf' hl').2]

/-- A session of `cfgW` in which the `go` button is already in flight. -/
def sW1 : AppState :=
  ⟨cfgW, ⟨[("note", "hi")], [], [("go", ⟨true, none⟩)], []⟩,
    [⟨"go", .GENERATE_TEXT, [("note", "hi")]⟩]⟩

/-- A fresh session of `cfgW` in which `note` has been set, so a first click
of `go` passes validation and issues a call. -/
def sW1b : AppState := ⟨cfgW, ⟨[("note", "hi")], [], [], []⟩, []⟩

/-- Witness for claim C1: with `go` in flight, clicking it again (five times)
changes nothing and issues no call; from an idle state, a click followed by
four rapid re-clicks issues exactly one call. -/
theorem claim_C1_witness :
    (appStep sW1 (.click "go") = sW1 ∧
      appRun sW1 (List.replicate 5 (.click "go")) = sW1 ∧
      callsOfRun sW1 (List.replicate 5 (.click "go")) = 0) ∧
    callsOfRun sW1b (AppEvent.click "go" :: List.replicate 4 (.click "go")) = 1 :=
  ⟨(claim_C1_reentrancy sW1 "go" ⟨"go", .GENERATE_TEXT, ["note"]⟩ 5
      (by decide)).1 (by decide),
    (claim_C1_reentrancy sW1b "go" ⟨"go", .GENERATE_TEXT, ["note"]⟩ 4
      (by decide)).2 (by decide)⟩

/-! ## Claims C2 and C3

`App` replaces a live description by assigning `setAppConfig(result.appConfig)`
and keeps rendering `<AppRenderer config={appConfig} />` with no `key`, so the
renderer instance — and all four state maps — survives the swap, and a pending
`executeAppAction` continuation still commits its result afterwards; there is
no generation counter anywhere in `AppRenderer`. -/

/-- A first description: a required `topic`, a free `note`, a button. -/
def cfgD1 : AppConfig := ⟨[
  .INPUT_TEXT "topic" "Topic" none (some ⟨some true, none, some 20⟩),
  .INPUT_TEXT "note" "Note" none none,
  .BUTTON "go" "Go" .GENERATE_TEXT ["note"],
  .OUTPUT_TEXT "out" "go"]⟩

/-- A second, replacing description reusing the ids `topic`, `go`, `out`. -/
def cfgD2 : AppConfig := ⟨[
  .INPUT_TEXT "topic" "Topic again" none none,
  .BUTTON "go" "Go" .GENERATE_IMAGE ["topic"],
  .OUTPUT_IMAGE "out" "go"]⟩

/-- A session on `cfgD1` that populates all four maps (a validation error on
`topic`, a value in `note`, a settled successful call of `go`) and then
swaps in `cfgD2`. -/
def traceC2 : List AppEvent :=
  [.inputChange "topic" "", .inputChange "note" "hi", .click "go",
    .resolve 0 "res", .setConfig cfgD2]

/-- Claim C2 fails on the code: after working under `cfgD1` and replacing the
description with `cfgD2`, every one of the four renderer state maps still
holds its old entries — for ids present in both descriptions included —
because the un-keyed `AppRenderer` instance is never re-initialized. -/
theorem claim_C2_residual_state :
    (appRun ⟨cfgD1, initialRState, []⟩ traceC2).config = cfgD2 ∧
    rget (appRun ⟨cfgD1, initialRState, []⟩ traceC2).renderer.inputValues
      "topic" = some "" ∧
    rget (appRun ⟨cfgD1, initialRState, []⟩ traceC2).renderer.inputValues
      "note" = some "hi" ∧
    rget (appRun ⟨cfgD1, initialRState, []⟩ traceC2).renderer.errors
      "topic" = some (some "This field is required.") ∧
    rget (appRun ⟨cfgD1, initialRState, []⟩ traceC2).renderer.outputValues
      "go" = some "res" ∧
    rget (appRun ⟨cfgD1, initialRState, []⟩ traceC2).renderer.executingState
      "go" = some ⟨false, none⟩ ∧
    appRun ⟨cfgD1, initialRState, []⟩ traceC2 ≠
      ⟨cfgD2, initialRState, []⟩ := by
  refine ⟨rfl, rfl, rfl, rfl, rfl, rfl, ?_⟩
  decide

/-- A session on `cfgD1` that starts a call of `go`, swaps in `cfgD2`, and
only then sees the call resolve. -/
def traceC3 : List AppEvent :=
  [.inputChange "note" "hi", .click "go", .setConfig cfgD2,
    .resolve 0 "stale result"]

/-- Claim C3 fails on the code: an executor call started under `cfgD1` that
settles after the swap to `cfgD2` writes its stale result into the new
session's `outputValues` (and its settled entry into `executingState`) —
nothing keys pending operations by a generation counter. -/
theorem claim_C3_stale_result_applied :
    (appRun ⟨cfgD1, initialRState, []⟩ traceC3).config = cfgD2 ∧
    rget (appRun ⟨cfgD1, initialRState, []⟩ traceC3).renderer.outputValues
      "go" = some "stale result" ∧
    rget (appRun ⟨cfgD1, initialRState, []⟩ traceC3).renderer.executingState
      "go" = some ⟨false, none⟩ := by
  exact ⟨rfl, rfl, rfl⟩

/-! ## Claim C4 -/

/-- The renderer state right after `go` settled successfully with the empty
string as result: `outputValues.go = ""`, idle, no error. -/
def sC4 : RState := ⟨[], [("go", "")], [("go", ⟨false, none⟩)], []⟩

/-- Claim C4 fails on the code: a successful execution that returned the
empty string renders no output node at all — `!outputText` conflates the
empty-string result with the no-invocation-history case (which, as the last
two conjuncts show, renders nothing too), for `OUTPUT_TEXT` and
`OUTPUT_IMAGE` alike. -/
theorem claim_C4_empty_result_node :
    rget sC4.outputValues "go" = some "" ∧
    rget sC4.executingState "go" = some ⟨false, none⟩ ∧
    renderOutputText sC4 "go" = none ∧
    renderOutputImage sC4 "go" = none ∧
    renderOutputText initialRState "go" = none ∧
    renderOutputImage initialRState "go" = none := by
  exact ⟨rfl, rfl, rfl, rfl, rfl, rfl⟩

end AppBuilder
